import Mathlib

/-!
# cognitoclientgo: the client's session state machine

A shallow embedding of `client.go` (package `cognitoclientgo`).

Modelling conventions
* Go `string` is `String`; `map[string]string` is an association list whose
  entries are the map's key/value pairs (`StrMap`), a nil map being `[]`
  except for `Client.user`, whose nil-ness the code tests (`Option`).
* `time.Time` is a `Nat` instant, the zero `Time` being `0`.
* The packages the client calls but does not define are inputs of the model:
  every HTTP exchange is described by an `Exchange` (how far the exchange got
  and, if a body was read, what `json.Unmarshal` makes of it at each target
  type the client decodes into), the SRP engine is the record `CognitoSRP`,
  and each `time.Now()` is a field of the call's environment.
* Every operation returns, besides its Go results, the client after the call
  and the list of requests handed to `httpc.Do`.
* `fmt.Printf` output is not modelled.
-/

namespace Cognito

/-! ## Data model -/

/-- A Go `map[string]string`, as the list of its entries. -/
abbrev StrMap := List (String × String)

/-- Go `m[k]` with the comma-ok form: the value stored under `k`, if any. -/
def StrMap.get (m : StrMap) (k : String) : Option String :=
  m.lookup k

/-- Go `m[k] = v`: any previous entry for `k` is replaced. -/
def StrMap.set (m : StrMap) (k v : String) : StrMap :=
  (k, v) :: m.filter (fun e => e.1 ≠ k)

/-- Go `error` values, by the package that built them. -/
inductive GoError where
  /-- The value of errors.New(msg) -/
  | new (msg : String)
  /-- An error returned by encoding/json -/
  | json (detail : String)
  /-- An error returned by net/http or io/ioutil -/
  | http (detail : String)
  /-- An error returned by the srp package -/
  | srp (detail : String)
  deriving DecidableEq

/-- The dynamic value of an `interface{}` filled by `json.Unmarshal`. -/
inductive Any where
  /-- JSON null: the nil interface -/
  | nil
  | bool (b : Bool)
  /-- A JSON number (a float64), kept as its literal -/
  | number (literal : String)
  | string (s : String)
  /-- A JSON array; its elements are never inspected -/
  | array
  /-- A JSON object; its members are never inspected -/
  | object
  deriving DecidableEq

/-- Go `result[k]` on a `map[string]interface{}`: nil when the key is absent. -/
def mapIndex (m : List (String × Any)) (k : String) : Any :=
  (m.lookup k).getD Any.nil

/-- The anonymous result struct of `initiateAuth`. -/
structure ChallengeResult where
  ChallengeName : String
  ChallengeParameters : StrMap
  deriving DecidableEq

/-- The anonymous `AuthenticationResult` struct of `respondToAuthChallenge`. -/
structure AuthenticationResult where
  AccessToken : String
  IdToken : String
  RefreshToken : String
  TokenType : String
  deriving DecidableEq

/-- The anonymous result struct of `respondToAuthChallenge`. -/
structure RespondResult where
  AuthenticationResult : AuthenticationResult
  ChallengeParameters : StrMap
  deriving DecidableEq

/-- One element of `UserAttributes` in the result struct of `GetUser`. -/
structure UserAttribute where
  Name : String
  Value : String
  deriving DecidableEq

/-- The anonymous result struct of `GetUser`. -/
structure GetUserResult where
  UserAttributes : List UserAttribute
  Username : String
  deriving DecidableEq

/-- A response body, seen through `json.Unmarshal` at each of the target types
the client decodes it into; `.error` is a decode failure of that call. -/
structure Body where
  /-- Target map[string]interface{} (checkAWSRespError) -/
  asObject : Except String (List (String × Any))
  /-- Target: the result struct of initiateAuth -/
  asChallenge : Except String ChallengeResult
  /-- Target: the result struct of respondToAuthChallenge -/
  asAuthentication : Except String RespondResult
  /-- Target: the result struct of GetUser -/
  asUser : Except String GetUserResult

/-- How far one HTTP exchange gets: encode the payload, build the request,
`httpc.Do`, `ioutil.ReadAll`. -/
inductive Exchange where
  /-- The call enc.Encode failed: nothing is sent -/
  | encodeError (detail : String)
  /-- The call http.NewRequest failed: nothing is sent -/
  | requestError (detail : String)
  /-- The call httpc.Do returned an error -/
  | transportError (detail : String)
  /-- The call ioutil.ReadAll returned an error -/
  | readError (detail : String)
  /-- The body was read -/
  | response (body : Body)

/-- The JSON payload of a request. -/
inductive Payload where
  /-- The struct initiateAuthInput -/
  | initiateAuth (AuthFlow ClientId : String) (AuthParameters : StrMap)
  /-- The value produced by PasswordVerifierChallenge -/
  | challengeResponse (achParams : StrMap)
  /-- The struct holding AccessToken of GetUser -/
  | getUser (AccessToken : String)
  deriving DecidableEq

/-- A request handed to `httpc.Do`. -/
structure Request where
  method : String
  url : String
  headers : List (String × String)
  payload : Payload
  deriving DecidableEq

/-- The SRP engine `*srp.CognitoSRP`, as the two methods the client calls. -/
structure CognitoSRP where
  GetAuthParams : StrMap
  PasswordVerifierChallenge : StrMap → Nat → Except String StrMap

/-- Go `User`: `map[string]string`. -/
abbrev User := StrMap

/-- The `http.Client` of the client, by its only configured field. -/
structure HTTPClient where
  Timeout : Nat
  deriving DecidableEq

/-- Go `Client`. `user` is `none` for a nil map. -/
structure Client where
  url : String
  timeout : Nat
  region : String
  userPoolID : String
  clientID : String
  secretHash : String
  userName : String
  password : String
  httpc : HTTPClient
  lastError : Option GoError
  accessToken : String
  idToken : String
  refreshToken : String
  tokensTime : Nat
  user : Option User
  csrp : CognitoSRP
  challengeParameters : StrMap

/-- Go `Input`. -/
structure Input where
  UserPoolID : String
  ClientID : String
  SecretHash : String
  UserName : String
  Password : String
  deriving DecidableEq

/-- The result of one call: the Go return value, the client afterwards and the
requests handed to `httpc.Do`, in order. -/
structure Run (α : Type) where
  ret : α
  client : Client
  sent : List Request

/-! ## Operations -/

/-- Go `JWTToken`. -/
def JWTToken (c : Client) : String :=
  c.idToken

/-- Go `Tokens`. -/
def Tokens (c : Client) : StrMap :=
  [("AccessToken", c.accessToken), ("IdToken", c.idToken), ("RefreshToken", c.refreshToken)]

/-- Go `flowHeader`. -/
def flowHeader (name : String) : String × String :=
  ("X-Amz-Target", "AWSCognitoIdentityProviderService." ++ name)

/-- Go `contentHeader`. -/
def contentHeader : String × String :=
  ("Content-Type", "application/x-amz-json-1.1")

/-- Splitting a character list at every occurrence of `sep`. -/
def splitChars (sep : Char) : List Char → List (List Char)
  | [] => [[]]
  | ch :: rest =>
    if ch = sep then [] :: splitChars sep rest
    else
      match splitChars sep rest with
      | [] => [[ch]]
      | part :: parts => (ch :: part) :: parts

/-- Go `strings.Split(s, sep)` for a one-character separator. -/
def stringsSplit (s : String) (sep : Char) : List String :=
  (splitChars sep s.data).map String.mk

/-- One second, in the nanoseconds of `time.Duration`. -/
def Second : Nat := 1000000000

/-- Go `NewClient`; `NewCognitoSRP` is `srp.NewCognitoSRP`, called with the user
name, password, pool id, client id and the optional secret hash. -/
def NewClient
    (NewCognitoSRP : String → String → String → String → Option String → Except String CognitoSRP)
    (inp : Input) : Except GoError Client :=
  let s := stringsSplit inp.UserPoolID '_'
  if s.length < 2 then
    .error (.new "UserPoolId is probably wrong, it should start with region")
  else if inp.ClientID = "" then
    .error (.new "ClientID cannot be empty")
  else if inp.UserName = "" then
    .error (.new "UserName cannot be empty")
  else if inp.Password = "" then
    .error (.new "Password cannot be empty")
  else
    let secretHash : Option String := if inp.SecretHash ≠ "" then some inp.SecretHash else none
    match NewCognitoSRP inp.UserName inp.Password inp.UserPoolID inp.ClientID secretHash with
    | .error e => .error (.srp e)
    | .ok csrp =>
      let timeout := 5 * Second
      .ok {
        url := "https://cognito-idp." ++ s.headD "" ++ ".amazonaws.com/"
        timeout := timeout
        httpc := { Timeout := timeout }
        csrp := csrp
        region := s.headD ""
        userPoolID := inp.UserPoolID
        clientID := inp.ClientID
        secretHash := inp.SecretHash
        userName := inp.UserName
        password := inp.Password
        lastError := none
        accessToken := ""
        idToken := ""
        refreshToken := ""
        tokensTime := 0
        user := none
        challengeParameters := [] }

/-- Go `checkAWSRespError`. -/
def checkAWSRespError (body : Body) : Option GoError :=
  match body.asObject with
  | .error e => some (.json e)
  | .ok result =>
    if mapIndex result "__type" ≠ Any.nil then
      let strE := match mapIndex result "__type" with
        | .string s => s
        | _ => "UnknownException"
      let strM := match mapIndex result "message" with
        | .string s => s
        | _ => "Unknown message"
      some (.new ("[" ++ strE ++ "]: " ++ strM))
    else none

/-- Go `initiateAuth`, the first step of `Auth`. -/
def initiateAuth (c : Client) (x : Exchange) : Run (Option GoError) :=
  let iaParams := Payload.initiateAuth "USER_SRP_AUTH" c.clientID c.csrp.GetAuthParams
  let req : Request :=
    { method := "POST", url := c.url,
      headers := [contentHeader, flowHeader "InitiateAuth"], payload := iaParams }
  match x with
  | .encodeError e => ⟨some (.json e), c, []⟩
  | .requestError e => ⟨some (.http e), c, []⟩
  | .transportError e => ⟨some (.http e), c, [req]⟩
  | .readError e => ⟨some (.http e), c, [req]⟩
  | .response body =>
    match checkAWSRespError body with
    | some err => ⟨some err, c, [req]⟩
    | none =>
      match body.asChallenge with
      | .error e => ⟨some (.json e), c, [req]⟩
      | .ok result =>
        if result.ChallengeName ≠ "PASSWORD_VERIFIER" then
          ⟨some (.new "No PASSWORD_VERIFIER response"), c, [req]⟩
        else
          ⟨none, { c with challengeParameters := result.ChallengeParameters }, [req]⟩

/-- Go `respondToAuthChallenge`, the second step of `Auth`. `challengeNow` is the
`time.Now()` given to the engine, `tokensNow` the one stored in `tokensTime`. -/
def respondToAuthChallenge (c : Client) (challengeNow : Nat) (x : Exchange) (tokensNow : Nat) :
    Run (Option GoError) :=
  match c.csrp.PasswordVerifierChallenge c.challengeParameters challengeNow with
  | .error e => ⟨some (.srp e), c, []⟩
  | .ok achParams =>
    let req : Request :=
      { method := "POST", url := c.url,
        headers := [contentHeader, flowHeader "RespondToAuthChallenge"],
        payload := Payload.challengeResponse achParams }
    match x with
    | .encodeError e => ⟨some (.json e), c, []⟩
    | .requestError e => ⟨some (.http e), c, []⟩
    | .transportError e => ⟨some (.http e), c, [req]⟩
    | .readError e => ⟨some (.http e), c, [req]⟩
    | .response body =>
      match checkAWSRespError body with
      | some err => ⟨some err, c, [req]⟩
      | none =>
        match body.asAuthentication with
        | .error e => ⟨some (.json e), c, [req]⟩
        | .ok result =>
          if result.AuthenticationResult.IdToken = "" then
            ⟨some (.new "Missing tokens in response"), c, [req]⟩
          else
            ⟨none,
             { c with
               accessToken := result.AuthenticationResult.AccessToken
               idToken := result.AuthenticationResult.IdToken
               refreshToken := result.AuthenticationResult.RefreshToken
               tokensTime := tokensNow },
             [req]⟩

/-- What one `Auth` call meets: the two exchanges and the two clock readings. -/
structure AuthEnv where
  /-- The exchange of initiateAuth -/
  initiate : Exchange
  /-- The clock reading passed to PasswordVerifierChallenge -/
  challengeNow : Nat
  /-- The exchange of respondToAuthChallenge -/
  respond : Exchange
  /-- The clock reading stored in tokensTime -/
  tokensNow : Nat

/-- Go `Auth`. The first component of the result is the returned token. -/
def Auth (c : Client) (env : AuthEnv) : Run (String × Option GoError) :=
  let r1 := initiateAuth c env.initiate
  match r1.ret with
  | some err => ⟨("", some err), { r1.client with lastError := some err }, r1.sent⟩
  | none =>
    let r2 := respondToAuthChallenge r1.client env.challengeNow env.respond env.tokensNow
    match r2.ret with
    | some err =>
      ⟨("", some err), { r2.client with lastError := some err }, r1.sent ++ r2.sent⟩
    | none => ⟨(r2.client.idToken, none), r2.client, r1.sent ++ r2.sent⟩

/-- The loop of `GetUser` over `result.UserAttributes`, from the map `u`. -/
def foldAttributes (u : User) : List UserAttribute → User
  | [] => u
  | item :: rest => foldAttributes (u.set item.Name item.Value) rest

/-- Go `GetUser`. `forcesl` is the variadic argument list; the returned pointer
`&c.user` is modelled by the value of `c.user` at return (`none`: a nil map). -/
def GetUser (c : Client) (forcesl : List Bool) (x : Exchange) :
    Run (Except GoError (Option User)) :=
  if c.accessToken = "" then
    ⟨.error (.new "Missing access token. Please authorize first"), c, []⟩
  else if (c.user ≠ none ∧ forcesl.length = 0) ∨ (forcesl.length > 0 ∧ forcesl.headD false = false) then
    ⟨.ok c.user, c, []⟩
  else
    let req : Request :=
      { method := "POST", url := c.url,
        headers := [contentHeader, flowHeader "GetUser"],
        payload := Payload.getUser c.accessToken }
    match x with
    | .encodeError e => ⟨.error (.json e), c, []⟩
    | .requestError e => ⟨.error (.http e), c, []⟩
    | .transportError e => ⟨.error (.http e), { c with lastError := some (.http e) }, [req]⟩
    | .readError e => ⟨.error (.http e), c, [req]⟩
    | .response body =>
      match checkAWSRespError body with
      | some err => ⟨.error err, { c with lastError := some err }, [req]⟩
      | none =>
        match body.asUser with
        | .error e => ⟨.error (.json e), { c with lastError := some (.json e) }, [req]⟩
        | .ok result =>
          if result.UserAttributes.length = 0 then
            ⟨.error (.new "No user attributes in response"), c, [req]⟩
          else
            let u := (foldAttributes [] result.UserAttributes).set "username" result.Username
            ⟨.ok (some u), { c with user := some u }, [req]⟩

/-! ## Sequences of calls -/

/-- One public call on a client, with what it meets. -/
inductive Call where
  | auth (env : AuthEnv)
  | getUser (forcesl : List Bool) (x : Exchange)

/-- The client after one call. -/
def step (c : Client) : Call → Client
  | .auth env => (Auth c env).client
  | .getUser forcesl x => (GetUser c forcesl x).client

/-- The client after a sequence of calls, first call first. -/
def runCalls (c : Client) (calls : List Call) : Client :=
  calls.foldl step c

/-! ## Reading the classifier's result -/

/-- The kind shown by `checkAWSRespError` for a non-nil `__type` value. -/
def envelopeKind : Any → String
  | .string s => s
  | _ => "UnknownException"

/-- The message shown by `checkAWSRespError` for the entry under `message`. -/
def envelopeMessage : Option Any → String
  | some (.string s) => s
  | _ => "Unknown message"

/-- The body decodes to an object whose `__type` is the string `k` and whose
`message` is the string `msg`: the provider's error envelope. -/
def IsEnvelope (b : Body) (k msg : String) : Prop :=
  ∃ m, b.asObject = .ok m ∧ m.lookup "__type" = some (Any.string k) ∧
    m.lookup "message" = some (Any.string msg)

/-- The tokens are all empty, or the ID token is set. -/
def TokensEmptyOrIdToken (c : Client) : Prop :=
  (c.accessToken = "" ∧ c.idToken = "" ∧ c.refreshToken = "") ∨ c.idToken ≠ ""

/-- The value of the last attribute of `l` named `n`, if any. -/
def lastValue (l : List UserAttribute) (n : String) : Option String :=
  (l.reverse.find? (fun a => a.Name = n)).map (fun a => a.Value)

/-! ## Refresh -/

/-- Modelled from the spec: the client that `client_test.go` exercises has, next
to the fields of `Client`, the expiry instant `tokenExpireAt` (spec 4.3:
expiry = issuedAt + TTL); `client.go` has neither the field nor the refresh
operation. -/
structure ExpiringClient where
  client : Client
  tokenExpireAt : Nat

/-- Modelled from the spec: the decoded success envelope of a refresh (spec 4.2,
4.3, 6); `RefreshToken` is empty when the response carries no new one. -/
structure RefreshResult where
  AccessToken : String
  IdToken : String
  RefreshToken : String
  ExpiresIn : Nat
  deriving DecidableEq

/-- Modelled from the spec: `initiateRefreshAuth`, called by `client_test.go` and
absent from `client.go` (spec 4.2). A non-empty refresh token is required; an
"InitiateAuth" request with `AuthFlow = REFRESH_TOKEN_AUTH` carries the refresh
token and, if configured, the secret hash; provider errors are classified; on
success the access and ID tokens are replaced, the issue time and the expiry
are recomputed, the cached profile is invalidated, and the refresh token is
kept when the response carries no new one. `decoded` is the body decoded at the
refresh result type. -/
def initiateRefreshAuth (rc : ExpiringClient) (x : Exchange)
    (decoded : Except String RefreshResult) (now : Nat) :
    Option GoError × ExpiringClient × List Request :=
  let c := rc.client
  if c.refreshToken = "" then
    (some (.new "NoSessionError"), rc, [])
  else
    let params : StrMap :=
      ("REFRESH_TOKEN", c.refreshToken) ::
        (if c.secretHash ≠ "" then [("SECRET_HASH", c.secretHash)] else [])
    let req : Request :=
      { method := "POST", url := c.url,
        headers := [contentHeader, flowHeader "InitiateAuth"],
        payload := Payload.initiateAuth "REFRESH_TOKEN_AUTH" c.clientID params }
    match x with
    | .encodeError e => (some (.json e), rc, [])
    | .requestError e => (some (.http e), rc, [])
    | .transportError e => (some (.http e), rc, [req])
    | .readError e => (some (.http e), rc, [req])
    | .response body =>
      match checkAWSRespError body with
      | some err => (some err, rc, [req])
      | none =>
        match decoded with
        | .error e => (some (.json e), rc, [req])
        | .ok result =>
          (none,
           { client :=
               { c with
                 accessToken := result.AccessToken
                 idToken := result.IdToken
                 refreshToken :=
                   if result.RefreshToken = "" then c.refreshToken else result.RefreshToken
                 tokensTime := now
                 user := none },
             tokenExpireAt := now + result.ExpiresIn },
           [req])

/-! ## JSON documents

What `json.Unmarshal` makes of a well-formed document when its target is the
`map[string]interface{}` of `checkAWSRespError`. -/

/-- A well-formed JSON document. A number keeps its literal and its value
`mantissa * 10 ^ exponent`. -/
inductive Json where
  | null
  | bool (b : Bool)
  | number (literal : String) (mantissa : Int) (exponent : Int)
  | string (s : String)
  | array (items : List Json)
  | object (members : List (String × Json))

/-- The least magnitude that rounds to an infinite float64: half an ulp above the
largest finite one. `strconv.ParseFloat(s, 64)` reports a range error from
here on. -/
def float64Limit : Nat := 2 ^ 1024 - 2 ^ 970

/-- Whether `mantissa * 10 ^ exponent` is out of the range of float64. -/
def overflowsFloat64 (mantissa exponent : Int) : Bool :=
  if 0 ≤ exponent then decide (float64Limit ≤ mantissa.natAbs * 10 ^ exponent.toNat)
  else decide (float64Limit * 10 ^ (-exponent).toNat ≤ mantissa.natAbs)

mutual
/-- The literal of the first number of the document, in document order, that
does not fit a float64. -/
def Json.firstOverflow : Json → Option String
  | .number literal mantissa exponent =>
    if overflowsFloat64 mantissa exponent then some literal else none
  | .array items => firstOverflowList items
  | .object members => firstOverflowMembers members
  | _ => none
/-- The first overflowing literal among the items of an array. -/
def firstOverflowList : List Json → Option String
  | [] => none
  | item :: rest =>
    match item.firstOverflow with
    | some literal => some literal
    | none => firstOverflowList rest
/-- The first overflowing literal among the members of an object. -/
def firstOverflowMembers : List (String × Json) → Option String
  | [] => none
  | (_, value) :: rest =>
    match value.firstOverflow with
    | some literal => some literal
    | none => firstOverflowMembers rest
end

/-- The `interface{}` value a member decodes to. -/
def Json.toAny : Json → Any
  | .null => Any.nil
  | .bool b => Any.bool b
  | .number literal _ _ => Any.number literal
  | .string s => Any.string s
  | .array _ => Any.array
  | .object _ => Any.object

/-- Go `json.Unmarshal(body, &result)` with `var result map[string]interface{}`, on a
well-formed document: null leaves the nil map, an object fills the map member
by member (a later member replacing an earlier one of the same key) and fails
on a number that does not fit a float64, anything else is a type error. -/
def unmarshalObject : Json → Except String (List (String × Any))
  | .null => .ok []
  | .object members =>
    match firstOverflowMembers members with
    | some literal =>
      .error ("json: cannot unmarshal number " ++ literal ++ " into Go value of type float64")
    | none =>
      .ok (members.foldl
        (fun m member => (member.1, member.2.toAny) :: m.filter (fun e => e.1 ≠ member.1)) [])
  | .bool _ => .error "json: cannot unmarshal bool into Go value of type map[string]interface {}"
  | .number _ _ _ =>
    .error "json: cannot unmarshal number into Go value of type map[string]interface {}"
  | .string _ =>
    .error "json: cannot unmarshal string into Go value of type map[string]interface {}"
  | .array _ => .error "json: cannot unmarshal array into Go value of type map[string]interface {}"

/-- The document is an object with a member `__type` holding the string `k` and a
member `message` holding the string `msg`. -/
def Json.carriesEnvelope (d : Json) (k msg : String) : Prop :=
  ∃ members, d = Json.object members ∧
    (∃ i, members.get? i = some ("__type", Json.string k)) ∧
    (∃ i, members.get? i = some ("message", Json.string msg))

/-- The environment of the last successful `Auth` call of a sequence run from `c`,
if any call of the sequence is a successful `Auth`. -/
def lastSuccessfulAuth (c : Client) : List Call → Option AuthEnv
  | [] => none
  | call :: rest =>
    match lastSuccessfulAuth (step c call) rest with
    | some env => some env
    | none =>
      match call with
      | .auth env => if (Auth c env).ret.2 = none then some env else none
      | .getUser _ _ => none

/-! ## Concrete inputs -/

/-- An engine that answers every challenge with the parameters it was given. -/
def engine0 : CognitoSRP :=
  { GetAuthParams := [("USERNAME", "u1"), ("SRP_A", "a0")],
    PasswordVerifierChallenge := fun params _ => .ok params }

/-- An engine constructor that always succeeds with `engine0`. -/
def newEngine0 : String → String → String → String → Option String → Except String CognitoSRP :=
  fun _ _ _ _ _ => .ok engine0

/-- The credentials of the spec's end-to-end scenario A. -/
def input0 : Input :=
  { UserPoolID := "eu-west-1_abc123", ClientID := "c1", SecretHash := "",
    UserName := "u1", Password := "p1" }

/-- As `input0` with a pool id that has no underscore and an empty client id. -/
def inputBad : Input :=
  { UserPoolID := "eu-west-1abc123", ClientID := "", SecretHash := "",
    UserName := "u1", Password := "p1" }

/-- The client `NewClient` builds from `input0` and `engine0`. -/
def client0 : Client :=
  { url := "https://cognito-idp.eu-west-1.amazonaws.com/", timeout := 5 * Second,
    region := "eu-west-1", userPoolID := "eu-west-1_abc123", clientID := "c1",
    secretHash := "", userName := "u1", password := "p1",
    httpc := { Timeout := 5 * Second }, lastError := none, accessToken := "",
    idToken := "", refreshToken := "", tokensTime := 0, user := none,
    csrp := engine0, challengeParameters := [] }

/-- The body `{"ChallengeName":"PASSWORD_VERIFIER","ChallengeParameters":{"SALT":"s0"}}`. -/
def bodyChallenge : Body :=
  { asObject := .ok [("ChallengeName", .string "PASSWORD_VERIFIER"), ("ChallengeParameters", .object)],
    asChallenge := .ok ⟨"PASSWORD_VERIFIER", [("SALT", "s0")]⟩,
    asAuthentication := .ok ⟨⟨"", "", "", ""⟩, [("SALT", "s0")]⟩,
    asUser := .ok ⟨[], ""⟩ }

/-- The body `{"ChallengeName":"SMS_MFA"}` of the spec's scenario B. -/
def bodySmsMfa : Body :=
  { asObject := .ok [("ChallengeName", .string "SMS_MFA")],
    asChallenge := .ok ⟨"SMS_MFA", []⟩,
    asAuthentication := .ok ⟨⟨"", "", "", ""⟩, []⟩,
    asUser := .ok ⟨[], ""⟩ }

/-- The body `{"AuthenticationResult":{"AccessToken":"tok.access.1",
"IdToken":"tok.id.1","RefreshToken":"tok.refresh.1","TokenType":"Bearer"}}`. -/
def bodyTokens : Body :=
  { asObject := .ok [("AuthenticationResult", .object)],
    asChallenge := .ok ⟨"", []⟩,
    asAuthentication := .ok ⟨⟨"tok.access.1", "tok.id.1", "tok.refresh.1", "Bearer"⟩, []⟩,
    asUser := .ok ⟨[], ""⟩ }

/-- The body `{"AuthenticationResult":{"IdToken":"tok.id.1"}}`. -/
def bodyIdTokenOnly : Body :=
  { asObject := .ok [("AuthenticationResult", .object)],
    asChallenge := .ok ⟨"", []⟩,
    asAuthentication := .ok ⟨⟨"", "tok.id.1", "", ""⟩, []⟩,
    asUser := .ok ⟨[], ""⟩ }

/-- The body `{"__type":"NotAuthorizedException","message":"Incorrect username or
password.","ChallengeName":"PASSWORD_VERIFIER","AuthenticationResult":{"IdToken":"tok.id.1"}}`:
an error envelope that also carries the success fields of both phases. -/
def bodyNotAuthorized : Body :=
  { asObject := .ok [("__type", .string "NotAuthorizedException"),
      ("message", .string "Incorrect username or password."),
      ("ChallengeName", .string "PASSWORD_VERIFIER"), ("AuthenticationResult", .object)],
    asChallenge := .ok ⟨"PASSWORD_VERIFIER", []⟩,
    asAuthentication := .ok ⟨⟨"", "tok.id.1", "", ""⟩, []⟩,
    asUser := .ok ⟨[], ""⟩ }

/-- The body `{"__type":null}`. -/
def bodyNullType : Body :=
  { asObject := .ok [("__type", .nil)],
    asChallenge := .ok ⟨"", []⟩,
    asAuthentication := .ok ⟨⟨"", "", "", ""⟩, []⟩,
    asUser := .ok ⟨[], ""⟩ }

/-- The body `{"__type":42}`. -/
def bodyNumberType : Body :=
  { asObject := .ok [("__type", .number "42")],
    asChallenge := .ok ⟨"", []⟩,
    asAuthentication := .ok ⟨⟨"", "", "", ""⟩, []⟩,
    asUser := .ok ⟨[], ""⟩ }

/-- The body `{"UserAttributes":[{"Name":"email","Value":"a@x"},
{"Name":"username","Value":"attr"},{"Name":"email","Value":"b@x"}],"Username":"u1"}`. -/
def bodyUser : Body :=
  { asObject := .ok [("UserAttributes", .array), ("Username", .string "u1")],
    asChallenge := .ok ⟨"", []⟩,
    asAuthentication := .ok ⟨⟨"", "", "", ""⟩, []⟩,
    asUser := .ok ⟨[⟨"email", "a@x"⟩, ⟨"username", "attr"⟩, ⟨"email", "b@x"⟩], "u1"⟩ }

/-- A successful `Auth` run: challenge, then tokens. -/
def envOk : AuthEnv :=
  { initiate := .response bodyChallenge, challengeNow := 100,
    respond := .response bodyTokens, tokensNow := 101 }

/-- A run whose phase-2 result holds an ID token only. -/
def envIdTokenOnly : AuthEnv :=
  { initiate := .response bodyChallenge, challengeNow := 100,
    respond := .response bodyIdTokenOnly, tokensNow := 101 }

/-- A run whose phase-1 response is the error envelope. -/
def envRejected1 : AuthEnv :=
  { initiate := .response bodyNotAuthorized, challengeNow := 100,
    respond := .response bodyTokens, tokensNow := 101 }

/-- A run whose phase-2 response is the error envelope. -/
def envRejected2 : AuthEnv :=
  { initiate := .response bodyChallenge, challengeNow := 100,
    respond := .response bodyNotAuthorized, tokensNow := 101 }

/-- A run of the spec's scenario B: the provider asks for SMS_MFA. -/
def envSmsMfa : AuthEnv :=
  { initiate := .response bodySmsMfa, challengeNow := 100,
    respond := .response bodyTokens, tokensNow := 101 }

/-- An authenticated client with an empty profile cache. -/
def clientAuthed : Client :=
  { client0 with
    accessToken := "tok.access.0", idToken := "tok.id.0", refreshToken := "tok.refresh.0",
    tokensTime := 50 }

/-- An authenticated client holding a cached profile. -/
def clientCached : Client :=
  { clientAuthed with user := some [("username", "u1"), ("email", "old@x")] }

/-- The authenticated client with an expiry instant. -/
def expiring0 : ExpiringClient :=
  { client := clientAuthed, tokenExpireAt := 3650 }

/-- The body `{"AuthenticationResult":{"AccessToken":"tok.access.2","IdToken":"tok.id.2",
"ExpiresIn":3600}}`, decoded at the refresh result type. -/
def refreshed2 : RefreshResult :=
  { AccessToken := "tok.access.2", IdToken := "tok.id.2", RefreshToken := "", ExpiresIn := 3600 }

/-- A later refresh result, again without a refresh token. -/
def refreshed3 : RefreshResult :=
  { AccessToken := "tok.access.3", IdToken := "tok.id.3", RefreshToken := "", ExpiresIn := 3600 }

/-- The document `{"__type":"NotAuthorizedException","message":"Incorrect username or
password.","x":1e999}`: the error envelope beside a number out of range. -/
def docEnvelopeOverflow : Json :=
  Json.object [("__type", Json.string "NotAuthorizedException"),
    ("message", Json.string "Incorrect username or password."),
    ("x", Json.number "1e999" 1 999)]

/-- The body holding `docEnvelopeOverflow`; none of its members names a field of a
result struct. -/
def bodyEnvelopeOverflow : Body :=
  { asObject := unmarshalObject docEnvelopeOverflow,
    asChallenge := .ok ⟨"", []⟩,
    asAuthentication := .ok ⟨⟨"", "", "", ""⟩, []⟩,
    asUser := .ok ⟨[], ""⟩ }

/-- A run whose phase-1 response is `bodyEnvelopeOverflow`. -/
def envEnvelopeOverflow : AuthEnv :=
  { initiate := .response bodyEnvelopeOverflow, challengeNow := 100,
    respond := .response bodyTokens, tokensNow := 101 }

/-! ## Theorems -/

/-- A split always has a first part. -/
theorem splitChars_pos (sep : Char) (l : List Char) : 1 ≤ (splitChars sep l).length := by
  cases l with
  | nil => simp [splitChars]
  | cons ch rest =>
    by_cases h : ch = sep
    · simp [splitChars, h]
    · simp only [splitChars, h, if_false]
      cases splitChars sep rest <;> simp

/-- The split has at least two parts exactly when the separator occurs. -/
theorem splitChars_length (sep : Char) (l : List Char) :
    2 ≤ (splitChars sep l).length ↔ sep ∈ l := by
  induction l with
  | nil => simp [splitChars]
  | cons ch rest ih =>
    by_cases h : ch = sep
    · have := splitChars_pos sep rest
      simp only [splitChars, h, if_true, List.length_cons, List.mem_cons, true_or, iff_true]
      omega
    · have hne : sep ≠ ch := fun e => h e.symm
      simp only [splitChars, h, if_false, List.mem_cons, hne, false_or]
      rw [← ih]
      cases hs : splitChars sep rest with
      | nil => simp
      | cons part parts => simp

/-- Go `strings.Split` on a one-character separator yields two parts or more exactly
when the string contains the separator. -/
theorem stringsSplit_length (s : String) (sep : Char) :
    2 ≤ (stringsSplit s sep).length ↔ sep ∈ s.data := by
  simp [stringsSplit, splitChars_length]

/-- C2. `NewClient` returns an error of its own (and no client, whatever the engine
constructor would do) whenever the pool id does not split on "_" into two parts
or more, or the client id, user name or password is empty; and whenever the pool id contains "_", the three are non-empty and
`srp.NewCognitoSRP` succeeds on the input, it returns a client and no error,
whether or not a secret hash is given. -/
theorem NewClient_fails_exactly_on_invalid_input
    (NewCognitoSRP : String → String → String → String → Option String → Except String CognitoSRP)
    (inp : Input) :
    (((stringsSplit inp.UserPoolID '_').length < 2 ∨ inp.ClientID = "" ∨ inp.UserName = ""
        ∨ inp.Password = "") →
      ∃ msg, NewClient NewCognitoSRP inp = .error (.new msg)) ∧
    (('_' ∈ inp.UserPoolID.data ∧ inp.ClientID ≠ "" ∧ inp.UserName ≠ "" ∧ inp.Password ≠ "") →
      ∀ engine,
        NewCognitoSRP inp.UserName inp.Password inp.UserPoolID inp.ClientID
          (if inp.SecretHash ≠ "" then some inp.SecretHash else none) = .ok engine →
        ∃ c, NewClient NewCognitoSRP inp = .ok c ∧ c.csrp = engine) := by
  constructor
  · intro h
    unfold NewClient
    by_cases h1 : (stringsSplit inp.UserPoolID '_').length < 2
    · simp [h1]
    by_cases h2 : inp.ClientID = ""
    · simp [h1, h2]
    by_cases h3 : inp.UserName = ""
    · simp [h1, h2, h3]
    by_cases h4 : inp.Password = ""
    · simp [h1, h2, h3, h4]
    · exact absurd h (by simp [h1, h2, h3, h4])
  · rintro ⟨hp, h2, h3, h4⟩ engine he
    have h1 : ¬ (stringsSplit inp.UserPoolID '_').length < 2 := by
      have := (stringsSplit_length inp.UserPoolID '_').mpr hp
      omega
    unfold NewClient
    simp only [h1, h2, h3, h4, if_false, he]
    exact ⟨_, rfl, rfl⟩

/-- C2, at concrete inputs: `inputBad` is rejected, `input0` is accepted. -/
theorem NewClient_fails_exactly_on_invalid_input_witness :
    (∃ msg, NewClient newEngine0 inputBad = .error (.new msg)) ∧
    (∃ c, NewClient newEngine0 input0 = .ok c ∧ c.csrp = engine0) :=
  ⟨(NewClient_fails_exactly_on_invalid_input newEngine0 inputBad).1 (Or.inr (Or.inl rfl)),
   (NewClient_fails_exactly_on_invalid_input newEngine0 input0).2
     ⟨by decide, by decide, by decide, by decide⟩ engine0 rfl⟩

/-! ### The classifier -/

/-- The classifier's message starts with a bracket, so it is none of the
client's own messages. -/
theorem bracketed_ne (k msg s : String) (hs : s.data.head? ≠ some '[') :
    "[" ++ k ++ "]: " ++ msg ≠ s := by
  intro h
  apply hs
  rw [← h]
  simp [String.data_append]

/-- The kind the classifier shows, read through `envelopeKind`. -/
theorem kind_match (v : Any) :
    (match v with | Any.string s => s | _ => "UnknownException") = envelopeKind v := by
  cases v <;> rfl

/-- The message the classifier shows, read through `envelopeMessage`. -/
theorem message_match (m : List (String × Any)) :
    (match mapIndex m "message" with | Any.string s => s | _ => "Unknown message")
      = envelopeMessage (m.lookup "message") := by
  unfold mapIndex
  cases hm : m.lookup "message" with
  | none => rfl
  | some w => cases w <;> rfl

/-- The classifier on an object whose `__type` is not nil. -/
theorem checkAWSRespError_of_type (body : Body) (m : List (String × Any)) (v : Any)
    (h : body.asObject = .ok m) (hv : m.lookup "__type" = some v) (hn : v ≠ Any.nil) :
    checkAWSRespError body =
      some (.new ("[" ++ envelopeKind v ++ "]: " ++ envelopeMessage (m.lookup "message"))) := by
  have hk : mapIndex m "__type" = v := by simp [mapIndex, hv]
  unfold checkAWSRespError
  simp only [h, hk]
  rw [if_pos hn, kind_match, message_match]

/-- The classifier on an error envelope. -/
theorem checkAWSRespError_of_envelope (b : Body) (k msg : String) (h : IsEnvelope b k msg) :
    checkAWSRespError b = some (.new ("[" ++ k ++ "]: " ++ msg)) := by
  obtain ⟨m, hm, hk, hmsg⟩ := h
  have := checkAWSRespError_of_type b m (Any.string k) hm hk (by simp)
  rw [this, hmsg]
  rfl

/-- C8, as stated, fails on the body `{"__type":null}`: the decoded object
carries a `__type` field, and the classifier returns no error. -/
theorem checkAWSRespError_null_type_is_no_error :
    bodyNullType.asObject = .ok [("__type", Any.nil)] ∧
    (∃ v, List.lookup "__type" [("__type", Any.nil)] = some v) ∧
    checkAWSRespError bodyNullType = none :=
  ⟨rfl, ⟨Any.nil, rfl⟩, rfl⟩

/-- C8, amended. For every body that decodes to an object: if the object carries
a `__type` field whose value is not null, the classifier returns the error
"[kind]: message", where kind is the `__type` value when it is a string and
"UnknownException" otherwise, and message is the `message` value when it is a
string and "Unknown message" when it is absent (or not a string); if the object
carries no `__type` field, or a null one, the classifier returns no error,
whatever else the object holds. -/
theorem checkAWSRespError_classifies (body : Body) (m : List (String × Any))
    (h : body.asObject = .ok m) :
    (∀ v, m.lookup "__type" = some v → v ≠ Any.nil →
      checkAWSRespError body =
        some (.new ("[" ++ envelopeKind v ++ "]: " ++ envelopeMessage (m.lookup "message")))) ∧
    ((m.lookup "__type" = none ∨ m.lookup "__type" = some Any.nil) →
      checkAWSRespError body = none) := by
  refine ⟨fun v hv hn => checkAWSRespError_of_type body m v h hv hn, ?_⟩
  intro hno
  have hk : mapIndex m "__type" = Any.nil := by
    rcases hno with h0 | h0 <;> simp [mapIndex, h0]
  unfold checkAWSRespError
  simp [h, hk]

/-- C8, amended, on the bodies `{"__type":"NotAuthorizedException","message":...}`,
`{"__type":42}` and `{"ChallengeName":"SMS_MFA"}`. -/
theorem checkAWSRespError_classifies_witness :
    checkAWSRespError bodyNotAuthorized =
      some (.new "[NotAuthorizedException]: Incorrect username or password.") ∧
    checkAWSRespError bodyNumberType = some (.new "[UnknownException]: Unknown message") ∧
    checkAWSRespError bodySmsMfa = none :=
  ⟨(checkAWSRespError_classifies bodyNotAuthorized _ rfl).1
      (Any.string "NotAuthorizedException") rfl (by decide),
   (checkAWSRespError_classifies bodyNumberType _ rfl).1 (Any.number "42") rfl (by decide),
   (checkAWSRespError_classifies bodySmsMfa _ rfl).2 (Or.inl rfl)⟩

/-! ### The two phases -/

/-- Phase 1 writes nothing but the challenge parameters. -/
theorem initiateAuth_frame (c : Client) (x : Exchange) :
    (initiateAuth c x).client.accessToken = c.accessToken ∧
    (initiateAuth c x).client.idToken = c.idToken ∧
    (initiateAuth c x).client.refreshToken = c.refreshToken ∧
    (initiateAuth c x).client.tokensTime = c.tokensTime ∧
    (initiateAuth c x).client.user = c.user ∧
    (initiateAuth c x).client.csrp = c.csrp := by
  unfold initiateAuth
  cases x with
  | response body =>
    dsimp only
    cases checkAWSRespError body with
    | some err => simp
    | none =>
      dsimp only
      cases body.asChallenge with
      | error e => simp
      | ok result =>
        dsimp only
        by_cases hn : result.ChallengeName ≠ "PASSWORD_VERIFIER"
        · rw [if_pos hn]; simp
        · rw [if_neg hn]; simp
  | _ => simp

/-- A failed phase 2 leaves the client as it was. -/
theorem respondToAuthChallenge_error (c : Client) (t1 : Nat) (x : Exchange) (t2 : Nat)
    (err : GoError) (h : (respondToAuthChallenge c t1 x t2).ret = some err) :
    (respondToAuthChallenge c t1 x t2).client = c := by
  unfold respondToAuthChallenge at h ⊢
  cases hp : c.csrp.PasswordVerifierChallenge c.challengeParameters t1 with
  | error e => simp
  | ok p =>
    rw [hp] at h
    cases x with
    | response body =>
      dsimp only at h ⊢
      cases hc : checkAWSRespError body with
      | some e => simp
      | none =>
        rw [hc] at h
        dsimp only at h ⊢
        cases hd : body.asAuthentication with
        | error e => simp
        | ok result =>
          rw [hd] at h
          dsimp only at h ⊢
          by_cases ht : result.AuthenticationResult.IdToken = ""
          · rw [if_pos ht]
          · rw [if_neg ht] at h
            simp at h
    | _ => simp

/-- Phase 2 never writes the cached profile. -/
theorem respondToAuthChallenge_user (c : Client) (t1 : Nat) (x : Exchange) (t2 : Nat) :
    (respondToAuthChallenge c t1 x t2).client.user = c.user := by
  unfold respondToAuthChallenge
  cases hp : c.csrp.PasswordVerifierChallenge c.challengeParameters t1 with
  | error e => simp
  | ok p =>
    cases x with
    | response body =>
      dsimp only
      cases hc : checkAWSRespError body with
      | some e => simp
      | none =>
        dsimp only
        cases hd : body.asAuthentication with
        | error e => simp
        | ok result =>
          dsimp only
          by_cases ht : result.AuthenticationResult.IdToken = ""
          · rw [if_pos ht]
          · rw [if_neg ht]
    | _ => simp

/-- A successful phase 2 stores a non-empty ID token. -/
theorem respondToAuthChallenge_ok (c : Client) (t1 : Nat) (x : Exchange) (t2 : Nat)
    (h : (respondToAuthChallenge c t1 x t2).ret = none) :
    (respondToAuthChallenge c t1 x t2).client.idToken ≠ "" := by
  unfold respondToAuthChallenge at h ⊢
  cases hp : c.csrp.PasswordVerifierChallenge c.challengeParameters t1 with
  | error e => rw [hp] at h; simp at h
  | ok p =>
    rw [hp] at h
    cases x with
    | response body =>
      dsimp only at h ⊢
      cases hc : checkAWSRespError body with
      | some e => rw [hc] at h; simp at h
      | none =>
        rw [hc] at h
        dsimp only at h ⊢
        cases hd : body.asAuthentication with
        | error e => rw [hd] at h; simp at h
        | ok result =>
          rw [hd] at h
          dsimp only at h ⊢
          by_cases ht : result.AuthenticationResult.IdToken = ""
          · rw [if_pos ht] at h; simp at h
          · rw [if_neg ht]; exact ht
    | _ => simp at h

/-- The run of `Auth` when phase 1 fails. -/
theorem Auth_phase1_error (c : Client) (env : AuthEnv) (e : GoError)
    (h1 : (initiateAuth c env.initiate).ret = some e) :
    Auth c env =
      ⟨("", some e), { (initiateAuth c env.initiate).client with lastError := some e },
        (initiateAuth c env.initiate).sent⟩ := by
  simp only [Auth, h1]

/-- The run of `Auth` when phase 1 succeeds and phase 2 fails. -/
theorem Auth_phase2_error (c : Client) (env : AuthEnv) (e : GoError)
    (h1 : (initiateAuth c env.initiate).ret = none)
    (h2 : (respondToAuthChallenge (initiateAuth c env.initiate).client env.challengeNow
        env.respond env.tokensNow).ret = some e) :
    Auth c env =
      ⟨("", some e),
        { (respondToAuthChallenge (initiateAuth c env.initiate).client env.challengeNow
            env.respond env.tokensNow).client with lastError := some e },
        (initiateAuth c env.initiate).sent ++
          (respondToAuthChallenge (initiateAuth c env.initiate).client env.challengeNow
            env.respond env.tokensNow).sent⟩ := by
  simp only [Auth, h1, h2]

/-- The run of `Auth` when both phases succeed. -/
theorem Auth_phases_ok (c : Client) (env : AuthEnv)
    (h1 : (initiateAuth c env.initiate).ret = none)
    (h2 : (respondToAuthChallenge (initiateAuth c env.initiate).client env.challengeNow
        env.respond env.tokensNow).ret = none) :
    Auth c env =
      ⟨((respondToAuthChallenge (initiateAuth c env.initiate).client env.challengeNow
            env.respond env.tokensNow).client.idToken, none),
        (respondToAuthChallenge (initiateAuth c env.initiate).client env.challengeNow
            env.respond env.tokensNow).client,
        (initiateAuth c env.initiate).sent ++
          (respondToAuthChallenge (initiateAuth c env.initiate).client env.challengeNow
            env.respond env.tokensNow).sent⟩ := by
  simp only [Auth, h1, h2]

/-- The session fields after a failed `Auth`. -/
theorem Auth_error_frame (c : Client) (env : AuthEnv) (err : GoError)
    (h : (Auth c env).ret.2 = some err) :
    (Auth c env).ret.1 = "" ∧
    (Auth c env).client.accessToken = c.accessToken ∧
    (Auth c env).client.idToken = c.idToken ∧
    (Auth c env).client.refreshToken = c.refreshToken ∧
    (Auth c env).client.tokensTime = c.tokensTime ∧
    (Auth c env).client.user = c.user := by
  obtain ⟨f1, f2, f3, f4, f5, _⟩ := initiateAuth_frame c env.initiate
  cases h1 : (initiateAuth c env.initiate).ret with
  | some e =>
    rw [Auth_phase1_error c env e h1]
    exact ⟨rfl, f1, f2, f3, f4, f5⟩
  | none =>
    cases h2 : (respondToAuthChallenge (initiateAuth c env.initiate).client env.challengeNow
        env.respond env.tokensNow).ret with
    | some e =>
      have hc := respondToAuthChallenge_error _ _ _ _ e h2
      rw [Auth_phase2_error c env e h1 h2]
      dsimp only
      rw [hc]
      exact ⟨rfl, f1, f2, f3, f4, f5⟩
    | none =>
      rw [Auth_phases_ok c env h1 h2] at h
      simp at h

/-- No `Auth` call writes the cached profile. -/
theorem Auth_user (c : Client) (env : AuthEnv) : (Auth c env).client.user = c.user := by
  obtain ⟨_, _, _, _, f5, _⟩ := initiateAuth_frame c env.initiate
  have hu := respondToAuthChallenge_user (initiateAuth c env.initiate).client env.challengeNow
    env.respond env.tokensNow
  cases h1 : (initiateAuth c env.initiate).ret with
  | some e =>
    rw [Auth_phase1_error c env e h1]
    exact f5
  | none =>
    cases h2 : (respondToAuthChallenge (initiateAuth c env.initiate).client env.challengeNow
        env.respond env.tokensNow).ret with
    | some e =>
      rw [Auth_phase2_error c env e h1 h2]
      exact hu.trans f5
    | none =>
      rw [Auth_phases_ok c env h1 h2]
      exact hu.trans f5

/-- A successful `Auth` stores a non-empty ID token. -/
theorem Auth_ok_idToken (c : Client) (env : AuthEnv) (h : (Auth c env).ret.2 = none) :
    (Auth c env).client.idToken ≠ "" := by
  cases h1 : (initiateAuth c env.initiate).ret with
  | some e => rw [Auth_phase1_error c env e h1] at h; simp at h
  | none =>
    cases h2 : (respondToAuthChallenge (initiateAuth c env.initiate).client env.challengeNow
        env.respond env.tokensNow).ret with
    | some e => rw [Auth_phase2_error c env e h1 h2] at h; simp at h
    | none =>
      rw [Auth_phases_ok c env h1 h2]
      exact respondToAuthChallenge_ok _ _ _ _ h2

/-- C6. Whenever `Auth` returns an error, whatever the cause, it returns the empty
token and the session is as before the call: accessToken, idToken, refreshToken,
tokensTime and the cached profile are unchanged. -/
theorem Auth_failure_leaves_session (c : Client) (env : AuthEnv) (err : GoError)
    (h : (Auth c env).ret.2 = some err) :
    (Auth c env).ret.1 = "" ∧
    (Auth c env).client.accessToken = c.accessToken ∧
    (Auth c env).client.idToken = c.idToken ∧
    (Auth c env).client.refreshToken = c.refreshToken ∧
    (Auth c env).client.tokensTime = c.tokensTime ∧
    (Auth c env).client.user = c.user :=
  Auth_error_frame c env err h

/-- C6 on the spec's scenario B: the provider asks for SMS_MFA, `Auth` fails and the
client built by `NewClient` still has no tokens. -/
theorem Auth_failure_leaves_session_witness :
    (Auth client0 envSmsMfa).ret.2 = some (.new "No PASSWORD_VERIFIER response") ∧
    (Auth client0 envSmsMfa).ret.1 = "" ∧
    (Auth client0 envSmsMfa).client.accessToken = "" ∧
    (Auth client0 envSmsMfa).client.idToken = "" ∧
    (Auth client0 envSmsMfa).client.refreshToken = "" ∧
    (Auth client0 envSmsMfa).client.tokensTime = 0 ∧
    (Auth client0 envSmsMfa).client.user = none :=
  ⟨rfl, Auth_failure_leaves_session client0 envSmsMfa
    (.new "No PASSWORD_VERIFIER response") rfl⟩

/-! ### Success and classification in `Auth` -/

/-- Phase 1 on a non-error envelope that names the expected challenge. -/
theorem initiateAuth_ok (c : Client) (b : Body) (r : ChallengeResult)
    (hc : checkAWSRespError b = none) (hd : b.asChallenge = .ok r)
    (hn : r.ChallengeName = "PASSWORD_VERIFIER") :
    initiateAuth c (.response b) =
      ⟨none, { c with challengeParameters := r.ChallengeParameters },
        [⟨"POST", c.url, [contentHeader, flowHeader "InitiateAuth"],
          Payload.initiateAuth "USER_SRP_AUTH" c.clientID c.csrp.GetAuthParams⟩]⟩ := by
  simp only [initiateAuth, hc, hd, hn]
  simp

/-- Phase 1 on a body the classifier rejects. -/
theorem initiateAuth_classified (c : Client) (b : Body) (e : GoError)
    (hc : checkAWSRespError b = some e) :
    initiateAuth c (.response b) =
      ⟨some e, c,
        [⟨"POST", c.url, [contentHeader, flowHeader "InitiateAuth"],
          Payload.initiateAuth "USER_SRP_AUTH" c.clientID c.csrp.GetAuthParams⟩]⟩ := by
  simp only [initiateAuth, hc]

/-- Phase 2 on a non-error envelope with an ID token. -/
theorem respondToAuthChallenge_tokens (c : Client) (t1 t2 : Nat) (b : Body) (p : StrMap)
    (r : RespondResult)
    (hp : c.csrp.PasswordVerifierChallenge c.challengeParameters t1 = .ok p)
    (hc : checkAWSRespError b = none) (hd : b.asAuthentication = .ok r)
    (ht : r.AuthenticationResult.IdToken ≠ "") :
    respondToAuthChallenge c t1 (.response b) t2 =
      ⟨none,
        { c with
          accessToken := r.AuthenticationResult.AccessToken
          idToken := r.AuthenticationResult.IdToken
          refreshToken := r.AuthenticationResult.RefreshToken
          tokensTime := t2 },
        [⟨"POST", c.url, [contentHeader, flowHeader "RespondToAuthChallenge"],
          Payload.challengeResponse p⟩]⟩ := by
  simp only [respondToAuthChallenge, hp, hc, hd]
  rw [if_neg ht]

/-- Phase 2 on a body the classifier rejects. -/
theorem respondToAuthChallenge_classified (c : Client) (t1 t2 : Nat) (b : Body) (p : StrMap)
    (e : GoError)
    (hp : c.csrp.PasswordVerifierChallenge c.challengeParameters t1 = .ok p)
    (hc : checkAWSRespError b = some e) :
    (respondToAuthChallenge c t1 (.response b) t2).ret = some e := by
  simp only [respondToAuthChallenge, hp, hc]

/-- C1. When the phase-1 response is a non-error envelope with ChallengeName
"PASSWORD_VERIFIER", the engine produces a verifier response, and the phase-2
response is a non-error envelope whose AuthenticationResult.IdToken is a
non-empty string t, then `Auth` returns (t, nil), the returned token is not
empty, and afterwards `JWTToken` is t and `Tokens` maps "AccessToken", "IdToken"
and "RefreshToken" to the three tokens of that phase-2 result. -/
theorem Auth_success_returns_id_token (c : Client) (b1 b2 : Body) (t1 t2 : Nat)
    (r1 : ChallengeResult) (p : StrMap) (r2 : RespondResult) (t : String)
    (hc1 : checkAWSRespError b1 = none) (hd1 : b1.asChallenge = .ok r1)
    (hn : r1.ChallengeName = "PASSWORD_VERIFIER")
    (hp : c.csrp.PasswordVerifierChallenge r1.ChallengeParameters t1 = .ok p)
    (hc2 : checkAWSRespError b2 = none) (hd2 : b2.asAuthentication = .ok r2)
    (ht : r2.AuthenticationResult.IdToken = t) (hne : t ≠ "") :
    (Auth c ⟨.response b1, t1, .response b2, t2⟩).ret = (t, none) ∧
    (Auth c ⟨.response b1, t1, .response b2, t2⟩).ret.1 ≠ "" ∧
    JWTToken (Auth c ⟨.response b1, t1, .response b2, t2⟩).client = t ∧
    Tokens (Auth c ⟨.response b1, t1, .response b2, t2⟩).client =
      [("AccessToken", r2.AuthenticationResult.AccessToken),
       ("IdToken", r2.AuthenticationResult.IdToken),
       ("RefreshToken", r2.AuthenticationResult.RefreshToken)] := by
  have e1 := initiateAuth_ok c b1 r1 hc1 hd1 hn
  have hne2 : r2.AuthenticationResult.IdToken ≠ "" := by rw [ht]; exact hne
  have e2 := respondToAuthChallenge_tokens
    { c with challengeParameters := r1.ChallengeParameters } t1 t2 b2 p r2 hp hc2 hd2 hne2
  have hA := Auth_phases_ok c ⟨.response b1, t1, .response b2, t2⟩
    (by rw [e1]) (by dsimp only; rw [e1]; dsimp only; rw [e2])
  dsimp only at hA
  rw [e1] at hA
  dsimp only at hA
  rw [e2] at hA
  rw [hA]
  refine ⟨?_, ?_, ?_, ?_⟩
  · simp [ht]
  · simpa [ht] using hne
  · simp [JWTToken, ht]
  · simp [Tokens]

/-- C1 on the spec's scenario A: the client of `NewClient` receives the challenge
and then the tokens. -/
theorem Auth_success_returns_id_token_witness :
    (Auth client0 envOk).ret = ("tok.id.1", none) ∧
    (Auth client0 envOk).ret.1 ≠ "" ∧
    JWTToken (Auth client0 envOk).client = "tok.id.1" ∧
    Tokens (Auth client0 envOk).client =
      [("AccessToken", "tok.access.1"), ("IdToken", "tok.id.1"),
       ("RefreshToken", "tok.refresh.1")] :=
  Auth_success_returns_id_token client0 bodyChallenge bodyTokens 100 101
    ⟨"PASSWORD_VERIFIER", [("SALT", "s0")]⟩ [("SALT", "s0")]
    ⟨⟨"tok.access.1", "tok.id.1", "tok.refresh.1", "Bearer"⟩, []⟩ "tok.id.1"
    rfl rfl rfl rfl rfl rfl rfl (by decide)

/-- The float64 limit lies below 10 ^ 999. -/
theorem float64Limit_le : (2 : Nat) ^ 1024 - 2 ^ 970 ≤ 10 ^ 999 := by
  norm_num

/-- The number 1e999 does not fit a float64. -/
theorem overflowsFloat64_1e999 : overflowsFloat64 1 999 = true := by
  unfold overflowsFloat64 float64Limit
  have h : (0 : Int) ≤ 999 := by norm_num
  rw [if_pos h]
  have e : (999 : Int).toNat = 999 := rfl
  have n : (1 : Int).natAbs = 1 := rfl
  rw [e, n, one_mul, decide_eq_true_eq]
  exact float64Limit_le

/-- The generic decode of the envelope beside 1e999 fails on the number. -/
theorem unmarshalObject_docEnvelopeOverflow :
    unmarshalObject docEnvelopeOverflow =
      .error "json: cannot unmarshal number 1e999 into Go value of type float64" := by
  simp only [unmarshalObject, docEnvelopeOverflow, firstOverflowMembers, Json.firstOverflow,
    overflowsFloat64_1e999, if_true]
  rfl

/-- C7, as stated, fails: the phase-1 body `{"__type":"NotAuthorizedException",
"message":"Incorrect username or password.","x":1e999}` is a JSON object carrying
the discriminator and the message, yet `json.Unmarshal` in `checkAWSRespError`
fails on the number 1e999 before `__type` is looked at, and `Auth` fails with
that decode error and not with the remote-auth error. -/
theorem Auth_envelope_beside_overflow_is_decode_error :
    docEnvelopeOverflow.carriesEnvelope "NotAuthorizedException"
      "Incorrect username or password." ∧
    bodyEnvelopeOverflow.asObject = unmarshalObject docEnvelopeOverflow ∧
    envEnvelopeOverflow.initiate = .response bodyEnvelopeOverflow ∧
    (Auth client0 envEnvelopeOverflow).ret =
      ("", some (.json "json: cannot unmarshal number 1e999 into Go value of type float64")) ∧
    (Auth client0 envEnvelopeOverflow).ret ≠
      ("", some (.new "[NotAuthorizedException]: Incorrect username or password.")) := by
  have hc : checkAWSRespError bodyEnvelopeOverflow =
      some (.json "json: cannot unmarshal number 1e999 into Go value of type float64") := by
    simp only [checkAWSRespError, bodyEnvelopeOverflow, unmarshalObject_docEnvelopeOverflow]
  have e1 := initiateAuth_classified client0 bodyEnvelopeOverflow _ hc
  have hA := Auth_phase1_error client0 envEnvelopeOverflow _
    (by rw [show envEnvelopeOverflow.initiate = .response bodyEnvelopeOverflow from rfl, e1])
  have hb : bodyEnvelopeOverflow.asObject = unmarshalObject docEnvelopeOverflow := by
    simp only [bodyEnvelopeOverflow]
  refine ⟨⟨_, rfl, ⟨0, rfl⟩, ⟨1, rfl⟩⟩, hb, rfl, ?_, ?_⟩
  · rw [hA]
  · rw [hA]
    intro hcontra
    have h2 := (Prod.mk.inj hcontra).2
    exact GoError.noConfusion (Option.some.inj h2)

/-- C7, amended. Whenever the phase-1 response body, or (phase 1 and the engine
having succeeded) the phase-2 response body, decodes without error into
`map[string]interface{}` as an object whose `__type` is the string k and whose
`message` is the string m, `Auth` fails with the classifier's error "[k]: m",
whatever the other decodings of that body hold; the error is no decode error,
not the unexpected-challenge error and not the missing-tokens error; and when
the envelope arrives in phase 1 the only request sent is the InitiateAuth one. -/
theorem Auth_error_envelope_first (c : Client) (env : AuthEnv) (k msg : String)
    (h : (∃ b, env.initiate = .response b ∧ IsEnvelope b k msg) ∨
      ((initiateAuth c env.initiate).ret = none ∧
        (∃ p, c.csrp.PasswordVerifierChallenge
          (initiateAuth c env.initiate).client.challengeParameters env.challengeNow = .ok p) ∧
        ∃ b, env.respond = .response b ∧ IsEnvelope b k msg)) :
    (Auth c env).ret = ("", some (.new ("[" ++ k ++ "]: " ++ msg))) ∧
    (Auth c env).ret.2 ≠ some (.new "No PASSWORD_VERIFIER response") ∧
    (Auth c env).ret.2 ≠ some (.new "Missing tokens in response") ∧
    (∀ d, (Auth c env).ret.2 ≠ some (.json d)) ∧
    ((∃ b, env.initiate = .response b ∧ IsEnvelope b k msg) →
      (Auth c env).sent =
        [⟨"POST", c.url, [contentHeader, flowHeader "InitiateAuth"],
          Payload.initiateAuth "USER_SRP_AUTH" c.clientID c.csrp.GetAuthParams⟩]) := by
  have key : (Auth c env).ret = ("", some (.new ("[" ++ k ++ "]: " ++ msg))) := by
    rcases h with ⟨b, hb, henv⟩ | ⟨h1, ⟨p, hp⟩, b, hb, henv⟩
    · have hc := checkAWSRespError_of_envelope b k msg henv
      have e1 := initiateAuth_classified c b _ hc
      rw [Auth_phase1_error c env _ (by rw [hb, e1])]
    · have hc := checkAWSRespError_of_envelope b k msg henv
      have hcs : (initiateAuth c env.initiate).client.csrp = c.csrp :=
        (initiateAuth_frame c env.initiate).2.2.2.2.2
      have e2 := respondToAuthChallenge_classified (initiateAuth c env.initiate).client
        env.challengeNow env.tokensNow b p _ (by rw [hcs]; exact hp) hc
      rw [Auth_phase2_error c env _ h1 (by rw [hb]; exact e2)]
  refine ⟨key, ?_, ?_, ?_, ?_⟩
  · rw [key]
    intro hcontra
    have := GoError.new.inj (Option.some.inj hcontra)
    exact bracketed_ne k msg _ (by decide) this
  · rw [key]
    intro hcontra
    have := GoError.new.inj (Option.some.inj hcontra)
    exact bracketed_ne k msg _ (by decide) this
  · intro d
    rw [key]
    simp
  · rintro ⟨b, hb, henv⟩
    have hc := checkAWSRespError_of_envelope b k msg henv
    have e1 := initiateAuth_classified c b _ hc
    rw [Auth_phase1_error c env _ (by rw [hb, e1])]
    rw [hb, e1]

/-- C7, amended, on the envelope of the spec's scenario C, which here also carries
ChallengeName "PASSWORD_VERIFIER" and an AuthenticationResult: in phase 1, and in
phase 2. -/
theorem Auth_error_envelope_first_witness :
    ((Auth client0 envRejected1).ret =
        ("", some (.new "[NotAuthorizedException]: Incorrect username or password.")) ∧
      (Auth client0 envRejected1).sent =
        [⟨"POST", "https://cognito-idp.eu-west-1.amazonaws.com/",
          [contentHeader, flowHeader "InitiateAuth"],
          Payload.initiateAuth "USER_SRP_AUTH" "c1" [("USERNAME", "u1"), ("SRP_A", "a0")]⟩]) ∧
    (Auth client0 envRejected2).ret =
      ("", some (.new "[NotAuthorizedException]: Incorrect username or password.")) :=
  ⟨⟨(Auth_error_envelope_first client0 envRejected1 "NotAuthorizedException"
        "Incorrect username or password."
        (Or.inl ⟨bodyNotAuthorized, rfl, _, rfl, rfl, rfl⟩)).1,
    (Auth_error_envelope_first client0 envRejected1 "NotAuthorizedException"
        "Incorrect username or password."
        (Or.inl ⟨bodyNotAuthorized, rfl, _, rfl, rfl, rfl⟩)).2.2.2.2
      ⟨bodyNotAuthorized, rfl, _, rfl, rfl, rfl⟩⟩,
   (Auth_error_envelope_first client0 envRejected2 "NotAuthorizedException"
      "Incorrect username or password."
      (Or.inr ⟨rfl, ⟨[("SALT", "s0")], rfl⟩, bodyNotAuthorized, rfl, _, rfl, rfl, rfl⟩)).1⟩

/-! ### The profile -/

/-- Entries filtered out for another key do not change a lookup. -/
theorem lookup_filter_ne (m : StrMap) (k n : String) (h : n ≠ k) :
    List.lookup n (m.filter (fun e => e.1 ≠ k)) = List.lookup n m := by
  induction m with
  | nil => rfl
  | cons e rest ih =>
    obtain ⟨ek, ev⟩ := e
    by_cases hk : ek = k
    · subst hk
      have hne : (n == ek) = false := by simpa using h
      rw [List.filter_cons, List.lookup_cons, hne]
      simpa using ih
    · by_cases hn : n = ek
      · subst hn
        have hd : decide ((n, ev).1 ≠ k) = true := by simpa using hk
        rw [List.filter_cons, hd]
        simp [List.lookup_cons]
      · have hne : (n == ek) = false := by simpa using hn
        have hd : decide ((ek, ev).1 ≠ k) = true := by simpa using hk
        rw [List.filter_cons, hd]
        simp only [if_true, List.lookup_cons, hne]
        exact ih

/-- Reading a map after a write. -/
theorem get_set (m : StrMap) (k v n : String) :
    (m.set k v).get n = if n = k then some v else m.get n := by
  unfold StrMap.set StrMap.get
  by_cases h : n = k
  · simp [List.lookup_cons, h]
  · have hne : (n == k) = false := by simpa using h
    rw [List.lookup_cons, hne, if_neg h]
    exact lookup_filter_ne m k n h

/-- The last value of a name in a list that starts with `a`. -/
theorem lastValue_cons (a : UserAttribute) (rest : List UserAttribute) (n : String) :
    lastValue (a :: rest) n =
      match lastValue rest n with
      | some v => some v
      | none => if a.Name = n then some a.Value else none := by
  unfold lastValue
  rw [List.reverse_cons, List.find?_append]
  cases hr : rest.reverse.find? (fun a => decide (a.Name = n)) with
  | some x => simp
  | none =>
    by_cases ha : a.Name = n
    · simp [List.find?_cons, ha]
    · simp [List.find?_cons, ha]

/-- A name has no last value exactly when no attribute bears it. -/
theorem lastValue_eq_none (l : List UserAttribute) (n : String) :
    lastValue l n = none ↔ ∀ a ∈ l, a.Name ≠ n := by
  unfold lastValue
  simp

/-- Reading the map the loop of `GetUser` builds. -/
theorem foldAttributes_get (l : List UserAttribute) (u : User) (n : String) :
    (foldAttributes u l).get n =
      match lastValue l n with
      | some v => some v
      | none => u.get n := by
  induction l generalizing u with
  | nil => rfl
  | cons a rest ih =>
    rw [foldAttributes, ih, lastValue_cons, get_set]
    cases lastValue rest n with
    | some v => rfl
    | none =>
      by_cases ha : a.Name = n
      · simp [ha]
      · have : ¬ n = a.Name := fun e => ha e.symm
        simp [ha, this]

/-- A `GetUser` call sends a request only with a token and past the cache test. -/
theorem GetUser_sent (c : Client) (forcesl : List Bool) (x : Exchange)
    (h : (GetUser c forcesl x).sent ≠ []) :
    c.accessToken ≠ "" ∧
    ¬ ((c.user ≠ none ∧ forcesl.length = 0) ∨
        (forcesl.length > 0 ∧ forcesl.headD false = false)) := by
  unfold GetUser at h
  by_cases ht : c.accessToken = ""
  · rw [if_pos ht] at h
    exact absurd rfl h
  · rw [if_neg ht] at h
    refine ⟨ht, ?_⟩
    intro hcache
    rw [if_pos hcache] at h
    exact absurd rfl h

/-- The run of `GetUser` past the cache test, on a decodable non-error body with
attributes. -/
theorem GetUser_fetch (c : Client) (forcesl : List Bool) (body : Body) (result : GetUserResult)
    (ht : c.accessToken ≠ "")
    (hno : ¬ ((c.user ≠ none ∧ forcesl.length = 0) ∨
        (forcesl.length > 0 ∧ forcesl.headD false = false)))
    (hc : checkAWSRespError body = none) (hd : body.asUser = .ok result)
    (hl : result.UserAttributes ≠ []) :
    GetUser c forcesl (.response body) =
      ⟨.ok (some ((foldAttributes [] result.UserAttributes).set "username" result.Username)),
        { c with
          user := some
            ((foldAttributes [] result.UserAttributes).set "username" result.Username) },
        [⟨"POST", c.url, [contentHeader, flowHeader "GetUser"],
          Payload.getUser c.accessToken⟩]⟩ := by
  have hlen : ¬ result.UserAttributes.length = 0 := by
    intro h0
    exact hl (List.length_eq_zero.mp h0)
  unfold GetUser
  rw [if_neg ht, if_neg hno]
  simp only [hc, hd]
  rw [if_neg hlen]

/-- The run of `GetUser` with a cached profile and no argument. -/
theorem GetUser_cached (c : Client) (u : User) (x : Exchange)
    (ht : c.accessToken ≠ "") (hu : c.user = some u) :
    GetUser c [] x = ⟨.ok (some u), c, []⟩ := by
  unfold GetUser
  rw [if_neg ht, if_pos (Or.inl ⟨by simp [hu], rfl⟩), hu]

/-- No `GetUser` call writes the tokens. -/
theorem GetUser_tokens (c : Client) (forcesl : List Bool) (x : Exchange) :
    (GetUser c forcesl x).client.accessToken = c.accessToken ∧
    (GetUser c forcesl x).client.idToken = c.idToken ∧
    (GetUser c forcesl x).client.refreshToken = c.refreshToken := by
  unfold GetUser
  by_cases ht : c.accessToken = ""
  · rw [if_pos ht]; exact ⟨rfl, rfl, rfl⟩
  · rw [if_neg ht]
    by_cases hcache : (c.user ≠ none ∧ forcesl.length = 0) ∨
        (forcesl.length > 0 ∧ forcesl.headD false = false)
    · rw [if_pos hcache]; exact ⟨rfl, rfl, rfl⟩
    · rw [if_neg hcache]
      cases x with
      | response body =>
        dsimp only
        cases checkAWSRespError body with
        | some e => exact ⟨rfl, rfl, rfl⟩
        | none =>
          dsimp only
          cases body.asUser with
          | error e => exact ⟨rfl, rfl, rfl⟩
          | ok result =>
            dsimp only
            by_cases hl : result.UserAttributes.length = 0
            · rw [if_pos hl]; exact ⟨rfl, rfl, rfl⟩
            · rw [if_neg hl]; exact ⟨rfl, rfl, rfl⟩
      | _ => exact ⟨rfl, rfl, rfl⟩

/-- C9. For every `GetUser` call that sends its request and reads a non-error
response with a non-empty attribute list L and username U, the returned mapping
is also the cached one, and it is the left-to-right fold of L with the last
write winning, followed by the write of "username": "username" maps to U, every
other name maps to the value of the last entry of L bearing it, and a name other
than "username" that no entry bears is not a key. -/
theorem GetUser_profile_is_last_write_wins_fold (c : Client) (forcesl : List Bool)
    (body : Body) (result : GetUserResult)
    (hsent : (GetUser c forcesl (.response body)).sent ≠ [])
    (hc : checkAWSRespError body = none) (hd : body.asUser = .ok result)
    (hl : result.UserAttributes ≠ []) :
    ∃ u : User,
      (GetUser c forcesl (.response body)).ret = .ok (some u) ∧
      (GetUser c forcesl (.response body)).client.user = some u ∧
      u = (foldAttributes [] result.UserAttributes).set "username" result.Username ∧
      u.get "username" = some result.Username ∧
      (∀ n, n ≠ "username" → u.get n = lastValue result.UserAttributes n) ∧
      (∀ n, n ≠ "username" → (∀ a ∈ result.UserAttributes, a.Name ≠ n) → u.get n = none) := by
  obtain ⟨ht, hno⟩ := GetUser_sent c forcesl (.response body) hsent
  have hg := GetUser_fetch c forcesl body result ht hno hc hd hl
  have hother : ∀ n, n ≠ "username" →
      ((foldAttributes [] result.UserAttributes).set "username" result.Username).get n
        = lastValue result.UserAttributes n := by
    intro n hn
    rw [get_set, if_neg hn, foldAttributes_get]
    cases lastValue result.UserAttributes n with
    | some v => rfl
    | none => rfl
  refine ⟨_, by rw [hg], by rw [hg], rfl, ?_, hother, ?_⟩
  · rw [get_set, if_pos rfl]
  · intro n hn hnone
    rw [hother n hn]
    exact (lastValue_eq_none _ n).mpr hnone

/-- C9 on a response whose list names "email" twice and holds an attribute
named "username": the later email wins and the Username field overrides. -/
theorem GetUser_profile_is_last_write_wins_fold_witness :
    ∃ u : User,
      (GetUser clientAuthed [] (.response bodyUser)).ret = .ok (some u) ∧
      (GetUser clientAuthed [] (.response bodyUser)).client.user = some u ∧
      u = (foldAttributes [] [⟨"email", "a@x"⟩, ⟨"username", "attr"⟩, ⟨"email", "b@x"⟩]).set
        "username" "u1" ∧
      u.get "username" = some "u1" ∧
      (∀ n, n ≠ "username" →
        u.get n = lastValue [⟨"email", "a@x"⟩, ⟨"username", "attr"⟩, ⟨"email", "b@x"⟩] n) ∧
      (∀ n, n ≠ "username" →
        (∀ a ∈ ([⟨"email", "a@x"⟩, ⟨"username", "attr"⟩, ⟨"email", "b@x"⟩] :
          List UserAttribute), a.Name ≠ n) → u.get n = none) :=
  GetUser_profile_is_last_write_wins_fold clientAuthed [] bodyUser
    ⟨[⟨"email", "a@x"⟩, ⟨"username", "attr"⟩, ⟨"email", "b@x"⟩], "u1"⟩
    (by decide) rfl rfl (by decide)

/-! ### The cache policy -/

/-- C3 at its failing input: an authenticated client with no cached profile is
asked `GetUser(false)`. No request is sent, a nil mapping is returned with a nil
error, the cache stays empty, and a second `GetUser(false)` sends nothing
either: the two calls perform no request at all. -/
theorem GetUser_false_on_empty_cache_sends_nothing :
    clientAuthed.accessToken ≠ "" ∧ clientAuthed.user = none ∧
    (GetUser clientAuthed [false] (.response bodyUser)).ret = .ok none ∧
    (GetUser clientAuthed [false] (.response bodyUser)).sent = [] ∧
    (GetUser clientAuthed [false] (.response bodyUser)).client.user = none ∧
    (GetUser (GetUser clientAuthed [false] (.response bodyUser)).client [false]
      (.response bodyUser)).sent = [] :=
  ⟨by decide, rfl, rfl, rfl, rfl, rfl⟩

/-- C4, as stated, fails: a client holding a cached profile authenticates again
with success; the cached profile is still the old mapping, and the next
`GetUser` without force returns that mapping and sends no request. -/
theorem Auth_does_not_reset_profile_example :
    (Auth clientCached envOk).ret = ("tok.id.1", none) ∧
    (Auth clientCached envOk).client.accessToken = "tok.access.1" ∧
    (Auth clientCached envOk).client.user = some [("username", "u1"), ("email", "old@x")] ∧
    (GetUser (Auth clientCached envOk).client [] (.response bodyUser)).ret =
      .ok (some [("username", "u1"), ("email", "old@x")]) ∧
    (GetUser (Auth clientCached envOk).client [] (.response bodyUser)).sent = [] :=
  ⟨rfl, rfl, rfl, rfl, rfl⟩

/-- A forced `GetUser` with a token hands its request to the transport whenever
the request can be encoded and built. -/
theorem GetUser_forced_sent (c : Client) (x : Exchange) (ht : c.accessToken ≠ "")
    (henc : ∀ e, x ≠ .encodeError e) (hreq : ∀ e, x ≠ .requestError e) :
    (GetUser c [true] x).sent =
      [⟨"POST", c.url, [contentHeader, flowHeader "GetUser"],
        Payload.getUser c.accessToken⟩] := by
  have hno : ¬ ((c.user ≠ none ∧ [true].length = 0) ∨
      ([true].length > 0 ∧ [true].headD false = false)) := by simp
  unfold GetUser
  rw [if_neg ht, if_neg hno]
  cases x with
  | encodeError e => exact absurd rfl (henc e)
  | requestError e => exact absurd rfl (hreq e)
  | transportError e => rfl
  | readError e => rfl
  | response body =>
    dsimp only
    cases checkAWSRespError body with
    | some e => rfl
    | none =>
      dsimp only
      cases body.asUser with
      | error e => rfl
      | ok result =>
        dsimp only
        by_cases hl : result.UserAttributes.length = 0
        · rw [if_pos hl]
        · rw [if_neg hl]

/-- C4, amended. For every client that holds a cached profile, after any `Auth`,
successful or not, the cached profile is the same mapping as before. So, when
the access token after the `Auth` is not empty: the next `GetUser` without
force returns the mapping fetched before that `Auth`, sends no request and
leaves the client as it is; `GetUser(true)` hands a GetUser request carrying
the access token to the transport whenever the request can be encoded and
built; and on a non-error response with a non-empty attribute list
`GetUser(true)` returns, and caches, the mapping folded from that response. -/
theorem Auth_keeps_cached_profile (c : Client) (env : AuthEnv) (u : User)
    (hu : c.user = some u) :
    (Auth c env).client.user = some u ∧
    ((Auth c env).client.accessToken ≠ "" →
      (∀ x, GetUser (Auth c env).client [] x = ⟨.ok (some u), (Auth c env).client, []⟩) ∧
      (∀ x, (∀ e, x ≠ .encodeError e) → (∀ e, x ≠ .requestError e) →
        (GetUser (Auth c env).client [true] x).sent =
          [⟨"POST", (Auth c env).client.url, [contentHeader, flowHeader "GetUser"],
            Payload.getUser (Auth c env).client.accessToken⟩]) ∧
      (∀ body result, checkAWSRespError body = none → body.asUser = .ok result →
        result.UserAttributes ≠ [] →
        (GetUser (Auth c env).client [true] (.response body)).ret =
          .ok (some ((foldAttributes [] result.UserAttributes).set "username"
            result.Username)) ∧
        (GetUser (Auth c env).client [true] (.response body)).client.user =
          some ((foldAttributes [] result.UserAttributes).set "username"
            result.Username))) := by
  have hu2 : (Auth c env).client.user = some u := (Auth_user c env).trans hu
  refine ⟨hu2, fun hat => ⟨?_, ?_, ?_⟩⟩
  · intro x
    exact GetUser_cached (Auth c env).client u x hat hu2
  · intro x henc hreq
    exact GetUser_forced_sent (Auth c env).client x hat henc hreq
  · intro body result hc hd hl
    have hno : ¬ (((Auth c env).client.user ≠ none ∧ [true].length = 0) ∨
        ([true].length > 0 ∧ [true].headD false = false)) := by simp
    have hg := GetUser_fetch (Auth c env).client [true] body result hat hno hc hd hl
    rw [hg]
    exact ⟨rfl, rfl⟩

/-- C4, amended, on the client with a cached profile and a successful run: the
cache survives, `GetUser()` serves it without a request, `GetUser(true)` sends
the request with the new access token and replaces the cache. -/
theorem Auth_keeps_cached_profile_witness :
    (Auth clientCached envOk).ret.2 = none ∧
    (Auth clientCached envOk).client.user = some [("username", "u1"), ("email", "old@x")] ∧
    GetUser (Auth clientCached envOk).client [] (.transportError "down") =
      ⟨.ok (some [("username", "u1"), ("email", "old@x")]), (Auth clientCached envOk).client,
        []⟩ ∧
    (GetUser (Auth clientCached envOk).client [true] (.response bodyUser)).sent =
      [⟨"POST", "https://cognito-idp.eu-west-1.amazonaws.com/",
        [contentHeader, flowHeader "GetUser"], Payload.getUser "tok.access.1"⟩] ∧
    (GetUser (Auth clientCached envOk).client [true] (.response bodyUser)).ret =
      .ok (some [("username", "u1"), ("email", "b@x")]) ∧
    (GetUser (Auth clientCached envOk).client [true] (.response bodyUser)).client.user =
      some [("username", "u1"), ("email", "b@x")] :=
  ⟨rfl,
   (Auth_keeps_cached_profile clientCached envOk [("username", "u1"), ("email", "old@x")]
      rfl).1,
   ((Auth_keeps_cached_profile clientCached envOk [("username", "u1"), ("email", "old@x")]
      rfl).2 (by decide)).1 (.transportError "down"),
   ((Auth_keeps_cached_profile clientCached envOk [("username", "u1"), ("email", "old@x")]
      rfl).2 (by decide)).2.1 (.response bodyUser)
      (fun _ h => Exchange.noConfusion h) (fun _ h => Exchange.noConfusion h),
   (((Auth_keeps_cached_profile clientCached envOk [("username", "u1"), ("email", "old@x")]
      rfl).2 (by decide)).2.2 bodyUser
      ⟨[⟨"email", "a@x"⟩, ⟨"username", "attr"⟩, ⟨"email", "b@x"⟩], "u1"⟩ rfl rfl
      (by decide)).1,
   (((Auth_keeps_cached_profile clientCached envOk [("username", "u1"), ("email", "old@x")]
      rfl).2 (by decide)).2.2 bodyUser
      ⟨[⟨"email", "a@x"⟩, ⟨"username", "attr"⟩, ⟨"email", "b@x"⟩], "u1"⟩ rfl rfl
      (by decide)).2⟩

/-! ### The token invariant -/

/-- One call keeps the tokens all empty or the ID token set. -/
theorem step_invariant (c : Client) (call : Call) (h : TokensEmptyOrIdToken c) :
    TokensEmptyOrIdToken (step c call) := by
  cases call with
  | auth env =>
    unfold step
    cases hr : (Auth c env).ret.2 with
    | none => exact Or.inr (Auth_ok_idToken c env hr)
    | some err =>
      obtain ⟨_, f1, f2, f3, _, _⟩ := Auth_error_frame c env err hr
      unfold TokensEmptyOrIdToken at h ⊢
      rw [f1, f2, f3]
      exact h
  | getUser forcesl x =>
    obtain ⟨f1, f2, f3⟩ := GetUser_tokens c forcesl x
    unfold step TokensEmptyOrIdToken at *
    rw [f1, f2, f3]
    exact h

/-- A sequence of calls keeps the tokens all empty or the ID token set. -/
theorem runCalls_invariant (calls : List Call) (c : Client) (h : TokensEmptyOrIdToken c) :
    TokensEmptyOrIdToken (runCalls c calls) := by
  induction calls generalizing c with
  | nil => exact h
  | cons call rest ih => exact ih (step c call) (step_invariant c call h)

/-- The client `NewClient` returns has no tokens and no cached profile. -/
theorem NewClient_tokens
    (NewCognitoSRP : String → String → String → String → Option String → Except String CognitoSRP)
    (inp : Input) (c : Client) (h : NewClient NewCognitoSRP inp = .ok c) :
    c.accessToken = "" ∧ c.idToken = "" ∧ c.refreshToken = "" ∧ c.user = none := by
  unfold NewClient at h
  by_cases h1 : (stringsSplit inp.UserPoolID '_').length < 2
  · simp [h1] at h
  by_cases h2 : inp.ClientID = ""
  · simp [h1, h2] at h
  by_cases h3 : inp.UserName = ""
  · simp [h1, h2, h3] at h
  by_cases h4 : inp.Password = ""
  · simp [h1, h2, h3, h4] at h
  simp only [h1, h2, h3, h4, if_false] at h
  cases hs : NewCognitoSRP inp.UserName inp.Password inp.UserPoolID inp.ClientID
      (if inp.SecretHash ≠ "" then some inp.SecretHash else none) with
  | error e => rw [hs] at h; simp at h
  | ok engine =>
    rw [hs] at h
    have hc := Except.ok.inj h
    subst hc
    exact ⟨rfl, rfl, rfl, rfl⟩

/-- C5, as stated, fails: the client `NewClient` builds from `input0` runs one
`Auth` whose phase-2 result holds an ID token and no other token; afterwards
idToken is set while accessToken and refreshToken are empty. -/
theorem tokens_not_all_or_nothing_example :
    NewClient newEngine0 input0 = .ok client0 ∧
    (Auth client0 envIdTokenOnly).ret = ("tok.id.1", none) ∧
    (runCalls client0 [.auth envIdTokenOnly]).idToken = "tok.id.1" ∧
    (runCalls client0 [.auth envIdTokenOnly]).accessToken = "" ∧
    (runCalls client0 [.auth envIdTokenOnly]).refreshToken = "" :=
  ⟨rfl, rfl, rfl, rfl, rfl⟩

/-- A successful phase 2 stores the three tokens of the result it decoded, whose
ID token is not empty. -/
theorem respondToAuthChallenge_ok_tokens (c : Client) (t1 : Nat) (x : Exchange) (t2 : Nat)
    (h : (respondToAuthChallenge c t1 x t2).ret = none) :
    ∃ b r, x = .response b ∧ b.asAuthentication = .ok r ∧
      r.AuthenticationResult.IdToken ≠ "" ∧
      (respondToAuthChallenge c t1 x t2).client.accessToken
        = r.AuthenticationResult.AccessToken ∧
      (respondToAuthChallenge c t1 x t2).client.idToken = r.AuthenticationResult.IdToken ∧
      (respondToAuthChallenge c t1 x t2).client.refreshToken
        = r.AuthenticationResult.RefreshToken := by
  unfold respondToAuthChallenge at h ⊢
  cases hp : c.csrp.PasswordVerifierChallenge c.challengeParameters t1 with
  | error e => rw [hp] at h; simp at h
  | ok p =>
    rw [hp] at h
    cases x with
    | response body =>
      dsimp only at h ⊢
      cases hc : checkAWSRespError body with
      | some e => rw [hc] at h; simp at h
      | none =>
        rw [hc] at h
        dsimp only at h ⊢
        cases hd : body.asAuthentication with
        | error e => rw [hd] at h; simp at h
        | ok result =>
          rw [hd] at h
          dsimp only at h ⊢
          by_cases ht : result.AuthenticationResult.IdToken = ""
          · rw [if_pos ht] at h; simp at h
          · rw [if_neg ht]
            exact ⟨body, result, rfl, hd, ht, rfl, rfl, rfl⟩
    | _ => simp at h

/-- A successful `Auth` leaves the three tokens of its phase-2 result. -/
theorem Auth_ok_tokens (c : Client) (env : AuthEnv) (h : (Auth c env).ret.2 = none) :
    ∃ b r, env.respond = .response b ∧ b.asAuthentication = .ok r ∧
      r.AuthenticationResult.IdToken ≠ "" ∧
      (Auth c env).client.accessToken = r.AuthenticationResult.AccessToken ∧
      (Auth c env).client.idToken = r.AuthenticationResult.IdToken ∧
      (Auth c env).client.refreshToken = r.AuthenticationResult.RefreshToken := by
  cases h1 : (initiateAuth c env.initiate).ret with
  | some e => rw [Auth_phase1_error c env e h1] at h; simp at h
  | none =>
    cases h2 : (respondToAuthChallenge (initiateAuth c env.initiate).client env.challengeNow
        env.respond env.tokensNow).ret with
    | some e => rw [Auth_phase2_error c env e h1 h2] at h; simp at h
    | none =>
      rw [Auth_phases_ok c env h1 h2]
      exact respondToAuthChallenge_ok_tokens _ _ _ _ h2

/-- The tokens after a sequence of calls: those before it when no call is a
successful `Auth`, else those of the phase-2 result of the last successful one. -/
theorem runCalls_tokens (calls : List Call) (c : Client) :
    (lastSuccessfulAuth c calls = none →
      (runCalls c calls).accessToken = c.accessToken ∧
      (runCalls c calls).idToken = c.idToken ∧
      (runCalls c calls).refreshToken = c.refreshToken) ∧
    (∀ env, lastSuccessfulAuth c calls = some env →
      ∃ b r, env.respond = .response b ∧ b.asAuthentication = .ok r ∧
        r.AuthenticationResult.IdToken ≠ "" ∧
        (runCalls c calls).accessToken = r.AuthenticationResult.AccessToken ∧
        (runCalls c calls).idToken = r.AuthenticationResult.IdToken ∧
        (runCalls c calls).refreshToken = r.AuthenticationResult.RefreshToken) := by
  induction calls generalizing c with
  | nil =>
    refine ⟨fun _ => ⟨rfl, rfl, rfl⟩, ?_⟩
    intro env h
    simp [lastSuccessfulAuth] at h
  | cons call rest ih =>
    obtain ⟨ih1, ih2⟩ := ih (step c call)
    have hrun : runCalls c (call :: rest) = runCalls (step c call) rest := rfl
    rw [hrun]
    cases hl : lastSuccessfulAuth (step c call) rest with
    | some env1 =>
      have hlast : lastSuccessfulAuth c (call :: rest) = some env1 := by
        simp only [lastSuccessfulAuth, hl]
      rw [hlast]
      refine ⟨fun h => Option.noConfusion h, ?_⟩
      intro env h
      have he : env1 = env := Option.some.inj h
      subst he
      exact ih2 env1 hl
    | none =>
      obtain ⟨g1, g2, g3⟩ := ih1 hl
      rw [g1, g2, g3]
      cases call with
      | auth env0 =>
        by_cases hok : (Auth c env0).ret.2 = none
        · have hlast : lastSuccessfulAuth c (Call.auth env0 :: rest) = some env0 := by
            simp only [lastSuccessfulAuth, hl, hok, if_true]
          rw [hlast]
          refine ⟨fun h => Option.noConfusion h, ?_⟩
          intro env h
          have he : env0 = env := Option.some.inj h
          subst he
          exact Auth_ok_tokens c env0 hok
        · have hlast : lastSuccessfulAuth c (Call.auth env0 :: rest) = none := by
            simp only [lastSuccessfulAuth, hl, hok, if_false]
          rw [hlast]
          refine ⟨fun _ => ?_, fun env h => Option.noConfusion h⟩
          cases hr : (Auth c env0).ret.2 with
          | none => exact absurd hr hok
          | some err =>
            obtain ⟨_, f1, f2, f3, _, _⟩ := Auth_error_frame c env0 err hr
            exact ⟨f1, f2, f3⟩
      | getUser forcesl x =>
        have hlast : lastSuccessfulAuth c (Call.getUser forcesl x :: rest) = none := by
          simp only [lastSuccessfulAuth, hl]
        rw [hlast]
        exact ⟨fun _ => GetUser_tokens c forcesl x, fun env h => Option.noConfusion h⟩

/-- C5, amended. The client returned by `NewClient` has all three tokens empty. In
every state reached from it by any sequence of `Auth` and `GetUser` calls,
under any provider responses: if no call of the sequence is a successful `Auth`
the three tokens are all empty; otherwise they are exactly the AccessToken,
IdToken and RefreshToken of the phase-2 result of the last successful `Auth`,
whose IdToken is not empty (its AccessToken and RefreshToken may be). Hence the
three tokens are all empty or idToken is non-empty, and a successful `Auth`
always leaves idToken non-empty. -/
theorem tokens_all_empty_or_idToken_set
    (NewCognitoSRP : String → String → String → String → Option String → Except String CognitoSRP)
    (inp : Input) (c : Client) (calls : List Call)
    (h : NewClient NewCognitoSRP inp = .ok c) :
    (c.accessToken = "" ∧ c.idToken = "" ∧ c.refreshToken = "") ∧
    (lastSuccessfulAuth c calls = none →
      (runCalls c calls).accessToken = "" ∧ (runCalls c calls).idToken = "" ∧
      (runCalls c calls).refreshToken = "") ∧
    (∀ env, lastSuccessfulAuth c calls = some env →
      ∃ b r, env.respond = .response b ∧ b.asAuthentication = .ok r ∧
        r.AuthenticationResult.IdToken ≠ "" ∧
        (runCalls c calls).accessToken = r.AuthenticationResult.AccessToken ∧
        (runCalls c calls).idToken = r.AuthenticationResult.IdToken ∧
        (runCalls c calls).refreshToken = r.AuthenticationResult.RefreshToken) ∧
    ((( runCalls c calls).accessToken = "" ∧ (runCalls c calls).idToken = "" ∧
        (runCalls c calls).refreshToken = "") ∨ (runCalls c calls).idToken ≠ "") ∧
    (∀ env, (Auth (runCalls c calls) env).ret.2 = none →
      (Auth (runCalls c calls) env).client.idToken ≠ "") := by
  obtain ⟨h1, h2, h3, _⟩ := NewClient_tokens NewCognitoSRP inp c h
  obtain ⟨r1, r2⟩ := runCalls_tokens calls c
  refine ⟨⟨h1, h2, h3⟩, ?_, r2, ?_, fun env hok => Auth_ok_idToken _ env hok⟩
  · intro hnone
    obtain ⟨g1, g2, g3⟩ := r1 hnone
    exact ⟨g1.trans h1, g2.trans h2, g3.trans h3⟩
  · exact runCalls_invariant calls c (Or.inl ⟨h1, h2, h3⟩)

/-- C5, amended, from the client of `input0`: after a failed `Auth` and a refused
`GetUser` the tokens are still empty; after a full `Auth`, a failed one and
then one whose result holds an ID token only, the tokens are those of that last
result, the access and refresh tokens being empty. -/
theorem tokens_all_empty_or_idToken_set_witness :
    ((runCalls client0 [.auth envSmsMfa, .getUser [] (.response bodyUser)]).accessToken = "" ∧
      (runCalls client0 [.auth envSmsMfa, .getUser [] (.response bodyUser)]).idToken = "" ∧
      (runCalls client0 [.auth envSmsMfa, .getUser [] (.response bodyUser)]).refreshToken
        = "") ∧
    (∃ b r, envIdTokenOnly.respond = .response b ∧ b.asAuthentication = .ok r ∧
      r.AuthenticationResult.IdToken ≠ "" ∧
      (runCalls client0 [.auth envOk, .auth envSmsMfa, .auth envIdTokenOnly]).accessToken
        = r.AuthenticationResult.AccessToken ∧
      (runCalls client0 [.auth envOk, .auth envSmsMfa, .auth envIdTokenOnly]).idToken
        = r.AuthenticationResult.IdToken ∧
      (runCalls client0 [.auth envOk, .auth envSmsMfa, .auth envIdTokenOnly]).refreshToken
        = r.AuthenticationResult.RefreshToken) :=
  ⟨(tokens_all_empty_or_idToken_set newEngine0 input0 client0
      [.auth envSmsMfa, .getUser [] (.response bodyUser)] rfl).2.1 rfl,
   (tokens_all_empty_or_idToken_set newEngine0 input0 client0
      [.auth envOk, .auth envSmsMfa, .auth envIdTokenOnly] rfl).2.2.1 envIdTokenOnly rfl⟩

/-! ### Refresh -/

/-- C10. For every client with a refresh token, a refresh that reads a non-error
response carrying new access and ID tokens and no refresh token succeeds,
replaces accessToken and idToken by the new ones, sets the expiry instant to
the new issue instant plus the new lifetime, and leaves refreshToken as it was;
a second such refresh again leaves the refresh token as it was. -/
theorem initiateRefreshAuth_keeps_refresh_token (rc : ExpiringClient)
    (body body2 : Body) (r r2 : RefreshResult) (now now2 : Nat)
    (hrt : rc.client.refreshToken ≠ "")
    (hc : checkAWSRespError body = none) (hr : r.RefreshToken = "")
    (hc2 : checkAWSRespError body2 = none) (hr2 : r2.RefreshToken = "") :
    (initiateRefreshAuth rc (.response body) (.ok r) now).1 = none ∧
    (initiateRefreshAuth rc (.response body) (.ok r) now).2.1.client.accessToken
      = r.AccessToken ∧
    (initiateRefreshAuth rc (.response body) (.ok r) now).2.1.client.idToken = r.IdToken ∧
    (initiateRefreshAuth rc (.response body) (.ok r) now).2.1.tokenExpireAt
      = now + r.ExpiresIn ∧
    (initiateRefreshAuth rc (.response body) (.ok r) now).2.1.client.refreshToken
      = rc.client.refreshToken ∧
    (initiateRefreshAuth (initiateRefreshAuth rc (.response body) (.ok r) now).2.1
      (.response body2) (.ok r2) now2).1 = none ∧
    (initiateRefreshAuth (initiateRefreshAuth rc (.response body) (.ok r) now).2.1
      (.response body2) (.ok r2) now2).2.1.client.accessToken = r2.AccessToken ∧
    (initiateRefreshAuth (initiateRefreshAuth rc (.response body) (.ok r) now).2.1
      (.response body2) (.ok r2) now2).2.1.client.refreshToken = rc.client.refreshToken := by
  have e1 : initiateRefreshAuth rc (.response body) (.ok r) now =
      (none,
        { client :=
            { rc.client with
              accessToken := r.AccessToken
              idToken := r.IdToken
              refreshToken := rc.client.refreshToken
              tokensTime := now
              user := none },
          tokenExpireAt := now + r.ExpiresIn },
        [⟨"POST", rc.client.url, [contentHeader, flowHeader "InitiateAuth"],
          Payload.initiateAuth "REFRESH_TOKEN_AUTH" rc.client.clientID
            (("REFRESH_TOKEN", rc.client.refreshToken) ::
              (if rc.client.secretHash ≠ "" then [("SECRET_HASH", rc.client.secretHash)]
                else []))⟩]) := by
    unfold initiateRefreshAuth
    simp only [hc, hr]
    rw [if_neg hrt]
    simp
  rw [e1]
  refine ⟨rfl, rfl, rfl, rfl, rfl, ?_, ?_, ?_⟩
  all_goals
    unfold initiateRefreshAuth
    simp [hc2, hr2, hrt]

/-- C10 on the authenticated client: two refreshes in a row, neither response
carrying a refresh token. -/
theorem initiateRefreshAuth_keeps_refresh_token_witness :
    (initiateRefreshAuth expiring0 (.response bodyTokens) (.ok refreshed2) 200).1 = none ∧
    (initiateRefreshAuth expiring0 (.response bodyTokens) (.ok refreshed2) 200).2.1.client.accessToken
      = "tok.access.2" ∧
    (initiateRefreshAuth expiring0 (.response bodyTokens) (.ok refreshed2) 200).2.1.client.idToken
      = "tok.id.2" ∧
    (initiateRefreshAuth expiring0 (.response bodyTokens) (.ok refreshed2) 200).2.1.tokenExpireAt
      = 200 + 3600 ∧
    (initiateRefreshAuth expiring0 (.response bodyTokens) (.ok refreshed2) 200).2.1.client.refreshToken
      = "tok.refresh.0" ∧
    (initiateRefreshAuth
      (initiateRefreshAuth expiring0 (.response bodyTokens) (.ok refreshed2) 200).2.1
      (.response bodyTokens) (.ok refreshed3) 300).1 = none ∧
    (initiateRefreshAuth
      (initiateRefreshAuth expiring0 (.response bodyTokens) (.ok refreshed2) 200).2.1
      (.response bodyTokens) (.ok refreshed3) 300).2.1.client.accessToken = "tok.access.3" ∧
    (initiateRefreshAuth
      (initiateRefreshAuth expiring0 (.response bodyTokens) (.ok refreshed2) 200).2.1
      (.response bodyTokens) (.ok refreshed3) 300).2.1.client.refreshToken = "tok.refresh.0" :=
  initiateRefreshAuth_keeps_refresh_token expiring0 bodyTokens bodyTokens refreshed2 refreshed3
    200 300 (by decide) rfl rfl rfl rfl

end Cognito
